import Mathlib

/-!
# TweetPrint — verification of the dither / pack / frame / transmit pipeline

Shallow embedding of the three Python scripts (`print_image.py`,
`print_tweet.py`, `print_gradient.py`).  Machine integers are modelled as
`Nat`; Python's `& 0xFF` is `% 256` and `>> 8` is `/ 256`.  The float
expression `int(v * (255.0 / 64.0))` is exact for `v ≤ 63` (the product has
at most 14 significant bits, far below a double's 53), so it equals the
natural-number division `v * 255 / 64`.
-/

namespace TweetPrint

/-- Printer width in pixels (`WIDTH = 384` in all three scripts). -/
def WIDTH : Nat := 384

/-- The 8×8 Bayer threshold matrix `BAYER8`, copied from the source. -/
def BAYER8 : List (List Nat) :=
  [ [0,48,12,60,3,51,15,63],
    [32,16,44,28,35,19,47,31],
    [8,56,4,52,11,59,7,55],
    [40,24,36,20,43,27,39,23],
    [2,50,14,62,1,49,13,61],
    [34,18,46,30,33,17,45,29],
    [10,58,6,54,9,57,5,53],
    [42,26,38,22,41,25,37,21] ]

/-- `threshold = int(BAYER8[y % 8][x % 8] * (255.0 / 64.0))` from
`dither_pixel`; the float arithmetic is exact, so this is the integer
division `v * 255 / 64`. -/
def bayerThreshold (x y : Nat) : Nat :=
  ((BAYER8.getD (y % 8) []).getD (x % 8) 0) * 255 / 64

/-- `dither_pixel(gray, x, y)`: 1 = black when `gray < threshold`, else 0. -/
def dither_pixel (gray x y : Nat) : Nat :=
  if gray < bayerThreshold x y then 1 else 0

/-- `pad = (8 - (width % 8)) % 8` from `build_bitmap_from_image`. -/
def pad (width : Nat) : Nat := (8 - width % 8) % 8

/-- `width_padded = width + pad`. -/
def widthPadded (width : Nat) : Nat := width + pad width

/-- `bytes_per_row = width_padded // 8`. -/
def bytesPerRow (width : Nat) : Nat := widthPadded width / 8

/-- One row of bit decisions (`row_bits` in the source): the dot decision
for columns `< width` and 0 for the padding columns.  `dot x y` is the
value the loop body stores (`b = dither_pixel(gray, x, y)` in the image
pipelines), kept abstract so any dot grid can be packed. -/
def rowBits (dot : Nat → Nat → Nat) (width y : Nat) : List Nat :=
  (List.range (widthPadded width)).map
    (fun x => if x < width then dot x y else 0)

/-- The inner byte-assembly loop: `val = 0; for bit in range(8):
val <<= 1; val |= row_bits[byte_i*8+bit]`, then `data.append(val & 0xFF)`.
For 0/1 bits, `val << 1 | bit` is `val * 2 + bit`. -/
def packByte (bits : List Nat) (byte_i : Nat) : Nat :=
  ((List.range 8).foldl (fun val bit => val * 2 + bits.getD (byte_i * 8 + bit) 0) 0) % 256

/-- All `bytes_per_row` bytes of one row. -/
def packRow (dot : Nat → Nat → Nat) (width y : Nat) : List Nat :=
  (List.range (bytesPerRow width)).map (packByte (rowBits dot width y))

/-- The outer loop of `build_bitmap_from_image`: rows 0, 1, …, height−1,
each contributing `bytes_per_row` bytes to `data`. -/
def buildBitmap (dot : Nat → Nat → Nat) (width : Nat) : Nat → List Nat
  | 0 => []
  | h + 1 => buildBitmap dot width h ++ packRow dot width h

/-- The dot function the image pipelines feed to the packer:
`b = dither_pixel(gray, x, y)` with `gray = pixels[x, y]`. -/
def ditherDotOf (pixels : Nat → Nat → Nat) : Nat → Nat → Nat :=
  fun x y => dither_pixel (pixels x y) x y

/-- Re-read bit `x` of row `y` from the packed buffer: byte
`y * bytesPerRow + x / 8`, MSB-first so column `x` is bit `7 - x % 8`. -/
def readBit (data : List Nat) (bpr y x : Nat) : Bool :=
  Nat.testBit (data.getD (y * bpr + x / 8) 0) (7 - x % 8)

/-- `INIT = b'\x1b\x40'` from `send_to_printer`. -/
def INIT : List Nat := [0x1b, 0x40]

/-- The 8-byte raster header from `send_to_printer`:
`bytes([0x1d, 0x76, 0x30, m, xL, xH, yL, yH])` with `m = 0`,
`xL = width_bytes & 0xFF`, `xH = (width_bytes >> 8) & 0xFF`, and the
same split for `height_pixels`. -/
def rasterHeader (width_bytes height_pixels : Nat) : List Nat :=
  [0x1d, 0x76, 0x30, 0,
   width_bytes % 256, width_bytes / 256 % 256,
   height_pixels % 256, height_pixels / 256 % 256]

/-- The full command byte stream the printer receives after the clearing
newline: reset bytes, raster header, then the payload. -/
def frameCommand (width_bytes height_pixels : Nat) (payload : List Nat) : List Nat :=
  INIT ++ rasterHeader width_bytes height_pixels ++ payload

/-- One observable operation on the opened device handle. -/
inductive DeviceOp where
  | write (bytes : List Nat)
  | flush
  | sleepMs (ms : Nat)
  deriving DecidableEq, Repr

/-- Phase 1 of `send_to_printer`: `f.write(b'\n'); f.flush();
time.sleep(0.02)`. -/
def phase1 : List DeviceOp :=
  [.write [10], .flush, .sleepMs 20]

/-- Phase 2: `f.write(INIT + header); f.flush(); time.sleep(0.02)`. -/
def phase2 (width_bytes height_pixels : Nat) : List DeviceOp :=
  [.write (INIT ++ rasterHeader width_bytes height_pixels), .flush, .sleepMs 20]

/-- Phase 3: `f.write(data_bytes); f.flush()`. -/
def phase3 (payload : List Nat) : List DeviceOp :=
  [.write payload, .flush]

/-- The ordered operation sequence `send_to_printer` performs on the
device handle. -/
def sendTrace (payload : List Nat) (width_bytes height_pixels : Nat) : List DeviceOp :=
  phase1 ++ phase2 width_bytes height_pixels ++ phase3 payload

/-- Outcome of one run of an entry point, as reported by its single
status line. -/
inductive Outcome where
  | usage            -- missing arguments
  | imageNotFound    -- "Image ... not found."
  | deviceNotFound   -- "Device ... not found."
  | sent             -- "Sent OK." / "Printed OK."
  | writeFailed      -- "Write failed:" / "Print failed:"
  deriving DecidableEq, Repr

/-- Control flow of `print_image.py`'s `main` around the device: after the
argument and image checks it tests `os.path.exists(DEV)` and returns
("Device ... not found.") **before** any device interaction; only then is
`send_to_printer` entered.  `ioOk` abstracts whether the writes inside the
`try` block raise. -/
def imageMain (argcOk imageExists devExists ioOk : Bool)
    (payload : List Nat) (width_bytes height_pixels : Nat) : Outcome × List DeviceOp :=
  if !argcOk then (.usage, [])
  else if !imageExists then (.imageNotFound, [])
  else if !devExists then (.deviceNotFound, [])
  else if ioOk then (.sent, sendTrace payload width_bytes height_pixels)
  else (.writeFailed, [])

/-- Control flow of `print_tweet.py`'s `main` around the device: it has
**no** `os.path.exists(DEV)` check — it calls `send_to_printer(DEV, ...)`
unconditionally inside `try`.  Python's `open(dev, "wb")` creates a
missing file, so when the device node is absent the three writes still
proceed (to a fresh regular file) and the script prints "Printed OK.";
`devExists` therefore does not influence the flow at all. -/
def tweetMain (argcOk ioOk : Bool) (_devExists : Bool)
    (payload : List Nat) (width_bytes height_pixels : Nat) : Outcome × List DeviceOp :=
  if !argcOk then (.usage, [])
  else if ioOk then (.sent, sendTrace payload width_bytes height_pixels)
  else (.writeFailed, [])

/-- The tweet-card canvas layout of `render_tweet`: the measurements that
depend on PIL font metrics (external collaborators) are abstracted as
inputs; the canvas itself is `Image.new("L", (WIDTH, total_height), 255)`
with `total_height = padding_top + profile_line_height + spacing +
tweet_text_height + spacing + date_height + padding_bottom`
(`padding_top = 8`, `spacing = 10`, `padding_bottom = 40`). -/
structure TweetMetrics where
  profileLineHeight : Nat
  tweetTextHeight : Nat
  dateHeight : Nat

/-- Size (width, height) of the canvas `render_tweet` returns. -/
def renderTweetSize (m : TweetMetrics) : Nat × Nat :=
  (WIDTH, 8 + m.profileLineHeight + 10 + m.tweetTextHeight + 10 + m.dateHeight + 40)

/-- MSB-first assembly of 8 bit values into one byte:
`((((((b0·2+b1)·2+b2)·2+b3)·2+b4)·2+b5)·2+b6)·2+b7`. -/
def encByte (b0 b1 b2 b3 b4 b5 b6 b7 : Nat) : Nat :=
  ((((((b0 * 2 + b1) * 2 + b2) * 2 + b3) * 2 + b4) * 2 + b5) * 2 + b6) * 2 + b7

lemma packByte_encByte (bits : List Nat) (i : Nat) :
    packByte bits i
      = encByte (bits.getD (i*8) 0) (bits.getD (i*8+1) 0) (bits.getD (i*8+2) 0)
          (bits.getD (i*8+3) 0) (bits.getD (i*8+4) 0) (bits.getD (i*8+5) 0)
          (bits.getD (i*8+6) 0) (bits.getD (i*8+7) 0) % 256 := by
  have h : List.range 8 = [0,1,2,3,4,5,6,7] := rfl
  simp [packByte, h, encByte]

lemma encByte_testBit :
    ∀ (b0 b1 b2 b3 b4 b5 b6 b7 : Bool), ∀ j < 8,
    Nat.testBit (encByte (cond b0 1 0) (cond b1 1 0) (cond b2 1 0) (cond b3 1 0)
        (cond b4 1 0) (cond b5 1 0) (cond b6 1 0) (cond b7 1 0) % 256) (7 - j)
      = [b0,b1,b2,b3,b4,b5,b6,b7].getD j false := by decide

lemma nat_bit_eq_cond (b : Nat) (hb : b ≤ 1) : b = cond (decide (b = 1)) 1 0 := by
  interval_cases b <;> simp

lemma widthPadded_mod8 (width : Nat) : widthPadded width % 8 = 0 := by
  unfold widthPadded pad; omega

lemma bytesPerRow_mul8 (width : Nat) : bytesPerRow width * 8 = widthPadded width := by
  have := widthPadded_mod8 width
  unfold bytesPerRow; omega

lemma rowBits_getD (dot : Nat → Nat → Nat) (width y x : Nat) (hx : x < widthPadded width) :
    (rowBits dot width y).getD x 0 = if x < width then dot x y else 0 := by
  simp [rowBits, List.getD_eq_getElem?_getD, List.getElem?_map, List.getElem?_range, hx]

lemma packRow_length (dot : Nat → Nat → Nat) (width y : Nat) :
    (packRow dot width y).length = bytesPerRow width := by
  simp [packRow]

lemma packRow_getD (dot : Nat → Nat → Nat) (width y k : Nat) (hk : k < bytesPerRow width) :
    (packRow dot width y).getD k 0 = packByte (rowBits dot width y) k := by
  simp [packRow, List.getD_eq_getElem?_getD, List.getElem?_map, List.getElem?_range, hk]

lemma buildBitmap_length (dot : Nat → Nat → Nat) (width height : Nat) :
    (buildBitmap dot width height).length = height * bytesPerRow width := by
  induction height with
  | zero => simp [buildBitmap]
  | succ h ih => simp [buildBitmap, ih, packRow_length, Nat.succ_mul]

lemma buildBitmap_getD (dot : Nat → Nat → Nat) (width height y k : Nat)
    (hy : y < height) (hk : k < bytesPerRow width) :
    (buildBitmap dot width height).getD (y * bytesPerRow width + k) 0
      = packByte (rowBits dot width y) k := by
  induction height with
  | zero => omega
  | succ h ih =>
    by_cases hyh : y < h
    · have hlt : y * bytesPerRow width + k < (buildBitmap dot width h).length := by
        rw [buildBitmap_length]
        have h1 : (y + 1) * bytesPerRow width ≤ h * bytesPerRow width :=
          Nat.mul_le_mul_right _ (by omega)
        have h2 : y * bytesPerRow width + k < (y + 1) * bytesPerRow width := by
          rw [Nat.succ_mul]; omega
        omega
      rw [buildBitmap, List.getD_append _ _ _ _ hlt]
      exact ih hyh
    · have hyeq : y = h := by omega
      subst hyeq
      have hlen : (buildBitmap dot width y).length ≤ y * bytesPerRow width + k := by
        rw [buildBitmap_length]; omega
      rw [buildBitmap, List.getD_append_right _ _ _ _ hlen, buildBitmap_length]
      have : y * bytesPerRow width + k - y * bytesPerRow width = k := by omega
      rw [this, packRow_getD _ _ _ _ hk]

/-- Core round-trip lemma: re-reading bit `x` of row `y` from the packed
buffer recovers the dot decision for real columns and 0 for padding. -/
lemma readBit_buildBitmap (dot : Nat → Nat → Nat) (width height y x : Nat)
    (hdot : ∀ a b, dot a b ≤ 1) (hy : y < height) (hx : x < widthPadded width) :
    readBit (buildBitmap dot width height) (bytesPerRow width) y x
      = decide ((if x < width then dot x y else 0) = 1) := by
  have hbpr8 := bytesPerRow_mul8 width
  have hk : x / 8 < bytesPerRow width := by omega
  unfold readBit
  rw [buildBitmap_getD dot width height y (x / 8) hy hk, packByte_encByte]
  have hb : ∀ j, j < 8 → (rowBits dot width y).getD (x / 8 * 8 + j) 0
      = if x / 8 * 8 + j < width then dot (x / 8 * 8 + j) y else 0 := by
    intro j hj
    exact rowBits_getD dot width y _ (by omega)
  have hb0 : (rowBits dot width y).getD (x / 8 * 8) 0
      = if x / 8 * 8 < width then dot (x / 8 * 8) y else 0 :=
    rowBits_getD dot width y _ (by omega)
  rw [hb0, hb 1 (by omega), hb 2 (by omega), hb 3 (by omega), hb 4 (by omega),
    hb 5 (by omega), hb 6 (by omega), hb 7 (by omega)]
  have hle : ∀ z : Nat, (if z < width then dot z y else 0) ≤ 1 := by
    intro z; split
    · exact hdot z y
    · omega
  rw [nat_bit_eq_cond _ (hle (x / 8 * 8)), nat_bit_eq_cond _ (hle (x / 8 * 8 + 1)),
    nat_bit_eq_cond _ (hle (x / 8 * 8 + 2)), nat_bit_eq_cond _ (hle (x / 8 * 8 + 3)),
    nat_bit_eq_cond _ (hle (x / 8 * 8 + 4)), nat_bit_eq_cond _ (hle (x / 8 * 8 + 5)),
    nat_bit_eq_cond _ (hle (x / 8 * 8 + 6)), nat_bit_eq_cond _ (hle (x / 8 * 8 + 7))]
  rw [encByte_testBit _ _ _ _ _ _ _ _ (x % 8) (by omega)]
  rcases (by omega : x % 8 = 0 ∨ x % 8 = 1 ∨ x % 8 = 2 ∨ x % 8 = 3 ∨ x % 8 = 4 ∨
      x % 8 = 5 ∨ x % 8 = 6 ∨ x % 8 = 7) with h|h|h|h|h|h|h|h <;>
    rw [h] <;> simp only [List.getD_cons_zero, List.getD_cons_succ]
  · rw [show x / 8 * 8 = x by omega]
  · rw [show x / 8 * 8 + 1 = x by omega]
  · rw [show x / 8 * 8 + 2 = x by omega]
  · rw [show x / 8 * 8 + 3 = x by omega]
  · rw [show x / 8 * 8 + 4 = x by omega]
  · rw [show x / 8 * 8 + 5 = x by omega]
  · rw [show x / 8 * 8 + 6 = x by omega]
  · rw [show x / 8 * 8 + 7 = x by omega]

lemma buildBitmap_succ (dot : Nat → Nat → Nat) (width h : Nat) :
    buildBitmap dot width (h + 1) = buildBitmap dot width h ++ packRow dot width h := rfl

/-- On an all-black input the ditherer paints white exactly where the
Bayer entry is 0, i.e. at positions with `x % 8 = 0` and `y % 8 = 0`. -/
lemma dither_pixel_zero (x y : Nat) :
    dither_pixel 0 x y = if x % 8 = 0 ∧ y % 8 = 0 then 0 else 1 := by
  have hx : x % 8 < 8 := by omega
  have hy : y % 8 < 8 := by omega
  unfold dither_pixel bayerThreshold
  revert hx hy
  generalize x % 8 = a
  generalize y % 8 = b
  intro hx hy
  interval_cases a <;> interval_cases b <;> decide

lemma packByte_allBlack (y k : Nat) (hk : k < 48) :
    packByte (rowBits (ditherDotOf fun _ _ => 0) 384 y) k
      = if y % 8 = 0 then 127 else 255 := by
  have hwp : widthPadded 384 = 384 := by decide
  have hbit : ∀ j, j < 8 → (rowBits (ditherDotOf fun _ _ => 0) 384 y).getD (k * 8 + j) 0
      = if j = 0 ∧ y % 8 = 0 then 0 else 1 := by
    intro j hj
    rw [rowBits_getD _ _ _ _ (by omega), if_pos (by omega : k * 8 + j < 384)]
    show dither_pixel 0 (k * 8 + j) y = _
    rw [dither_pixel_zero]
    have : (k * 8 + j) % 8 = j := by omega
    rw [this]
  have hbit0 : (rowBits (ditherDotOf fun _ _ => 0) 384 y).getD (k * 8) 0
      = if y % 8 = 0 then 0 else 1 := by
    have h := hbit 0 (by omega)
    simpa using h
  rw [packByte_encByte, hbit0, hbit 1 (by omega), hbit 2 (by omega), hbit 3 (by omega),
    hbit 4 (by omega), hbit 5 (by omega), hbit 6 (by omega), hbit 7 (by omega)]
  by_cases hy : y % 8 = 0 <;> simp [hy, encByte]

lemma packRow_allBlack (y : Nat) :
    packRow (ditherDotOf fun _ _ => 0) 384 y
      = List.replicate 48 (if y % 8 = 0 then 127 else 255) := by
  have hbpr : bytesPerRow 384 = 48 := by decide
  rw [List.eq_replicate_iff]
  constructor
  · rw [packRow_length, hbpr]
  · intro b hb
    rw [packRow, hbpr] at hb
    obtain ⟨k, hk, hkb⟩ := List.exists_of_mem_map hb
    rw [List.mem_range] at hk
    rw [← hkb]
    exact packByte_allBlack y k hk

lemma dither_pixel_le_one (gray x y : Nat) : dither_pixel gray x y ≤ 1 := by
  unfold dither_pixel; split <;> omega

lemma ditherDotOf_le_one (pixels : Nat → Nat → Nat) (x y : Nat) :
    ditherDotOf pixels x y ≤ 1 := dither_pixel_le_one _ _ _

end TweetPrint

open TweetPrint

/-- C1 (counterexample): packing the all-0 (all-black) 384×10 grid does
NOT give an all-`0xFF` payload: the very first byte is `0x7F`, because
`BAYER8[0][0] = 0` makes the threshold 0 and `0 < 0` is false, so pixel
(0,0) dithers to white. -/
theorem allBlack_payload_counterexample :
    (buildBitmap (ditherDotOf fun _ _ => 0) 384 10).getD 0 0 = 0x7f
    ∧ (0x7f : Nat) ≠ 0xff := by
  constructor
  · decide
  · decide

set_option maxRecDepth 8000 in
/-- C1 (amended): packing the all-0 (all-black) 384×10 grid yields a
payload whose bytes are `0xFF` except in the two rows with `y mod 8 = 0`
(rows 0 and 8), where every byte is `0x7F` — the MSB of each byte sits at
a column with `x mod 8 = 0`, where the Bayer threshold is 0 and the pixel
dithers to white. -/
theorem allBlack_payload_rows :
    buildBitmap (ditherDotOf fun _ _ => 0) 384 10
      = List.replicate 48 0x7f ++ (List.replicate 336 0xff
          ++ (List.replicate 48 0x7f ++ List.replicate 48 0xff)) := by
  have h0 : buildBitmap (ditherDotOf fun _ _ => 0) 384 10
      = []
        ++ packRow (ditherDotOf fun _ _ => 0) 384 0
        ++ packRow (ditherDotOf fun _ _ => 0) 384 1
        ++ packRow (ditherDotOf fun _ _ => 0) 384 2
        ++ packRow (ditherDotOf fun _ _ => 0) 384 3
        ++ packRow (ditherDotOf fun _ _ => 0) 384 4
        ++ packRow (ditherDotOf fun _ _ => 0) 384 5
        ++ packRow (ditherDotOf fun _ _ => 0) 384 6
        ++ packRow (ditherDotOf fun _ _ => 0) 384 7
        ++ packRow (ditherDotOf fun _ _ => 0) 384 8
        ++ packRow (ditherDotOf fun _ _ => 0) 384 9 := rfl
  rw [h0]
  simp only [packRow_allBlack]
  decide

/-- C2 (counterexample): at the out-of-range value `bytesPerRow = 65536`
the raster header is still built — no DimensionOverflow failure exists in
`send_to_printer` — and it coincides with the header for 0, i.e. the
dimension is silently truncated to its low 16 bits. -/
theorem rasterHeader_overflow_counterexample :
    rasterHeader 65536 200 = rasterHeader 0 200
    ∧ frameCommand 65536 200 [] = frameCommand 0 200 [] := by
  constructor
  · decide
  · decide

/-- C2 (amended): `send_to_printer` performs no range check on the
dimensions; for every `width_bytes` and `height_pixels` the 8-byte header
is built from the low 16 bits of each dimension (`& 0xFF` and
`>> 8 & 0xFF`), so out-of-range values are silently truncated rather than
rejected. -/
theorem rasterHeader_truncates_low16 (width_bytes height_pixels : Nat) :
    rasterHeader width_bytes height_pixels
      = rasterHeader (width_bytes % 65536) (height_pixels % 65536)
    ∧ (rasterHeader width_bytes height_pixels).length = 8 := by
  have h1 : width_bytes % 256 = width_bytes % 65536 % 256 := by omega
  have h2 : width_bytes / 256 % 256 = width_bytes % 65536 / 256 % 256 := by omega
  have h3 : height_pixels % 256 = height_pixels % 65536 % 256 := by omega
  have h4 : height_pixels / 256 % 256 = height_pixels % 65536 / 256 % 256 := by omega
  refine ⟨?_, rfl⟩
  rw [rasterHeader, rasterHeader, h1, h2, h3, h4]

/-- C3: packing any binary dot grid and re-reading bit `x` of row `y`
(MSB-first) recovers the original dot decision for every column
`x < width`, and every padding bit at columns `≥ width` is 0. -/
theorem pack_readBit_roundtrip (dot : Nat → Nat → Nat) (width height y x : Nat)
    (hdot : ∀ a b, dot a b ≤ 1) (hy : y < height) (hx : x < widthPadded width) :
    (x < width →
      (readBit (buildBitmap dot width height) (bytesPerRow width) y x = true ↔ dot x y = 1))
    ∧ (width ≤ x →
      readBit (buildBitmap dot width height) (bytesPerRow width) y x = false) := by
  have h := readBit_buildBitmap dot width height y x hdot hy hx
  constructor
  · intro hxw
    rw [h, if_pos hxw]
    simp
  · intro hxw
    rw [h, if_neg (by omega : ¬ x < width)]
    simp

/-- C3 witness: a concrete grid, width 5 (padded to 8), height 3; column
2 of row 1 reads back as the original dot, and padding column 6 reads 0. -/
theorem pack_readBit_roundtrip_witness :
    (readBit (buildBitmap (fun a b => (a + b) % 2) 5 3) (bytesPerRow 5) 1 2 = true
      ↔ (2 + 1) % 2 = 1)
    ∧ readBit (buildBitmap (fun a b => (a + b) % 2) 5 3) (bytesPerRow 5) 1 6 = false :=
  ⟨(pack_readBit_roundtrip (fun a b => (a + b) % 2) 5 3 1 2
      (fun a b => Nat.le_of_lt_succ (Nat.mod_lt (a + b) (by decide))) (by decide) (by decide)).1
      (by decide),
   (pack_readBit_roundtrip (fun a b => (a + b) % 2) 5 3 1 6
      (fun a b => Nat.le_of_lt_succ (Nat.mod_lt (a + b) (by decide))) (by decide) (by decide)).2
      (by decide)⟩

/-- C4: for `bytesPerRow = 48` and `heightPixels = 200` the framed command
is the reset bytes, then exactly the 8 header bytes
`1D 76 30 00 30 00 C8 00`, then immediately the 9600 payload bytes with
nothing in between. -/
theorem frame_header_48_200 (payload : List Nat) (h : payload.length = 9600) :
    frameCommand 48 200 payload
      = INIT ++ ([0x1d, 0x76, 0x30, 0x00, 0x30, 0x00, 0xc8, 0x00] ++ payload)
    ∧ (frameCommand 48 200 payload).drop 2
      = [0x1d, 0x76, 0x30, 0x00, 0x30, 0x00, 0xc8, 0x00] ++ payload
    ∧ (frameCommand 48 200 payload).drop 10 = payload
    ∧ ((frameCommand 48 200 payload).drop 10).length = 9600 := by
  exact ⟨rfl, rfl, rfl, h⟩

/-- C4 witness: the framing facts at a concrete all-zero 9600-byte
payload. -/
theorem frame_header_48_200_witness :
    frameCommand 48 200 (List.replicate 9600 0)
      = INIT ++ ([0x1d, 0x76, 0x30, 0x00, 0x30, 0x00, 0xc8, 0x00] ++ List.replicate 9600 0)
    ∧ (frameCommand 48 200 (List.replicate 9600 0)).drop 2
      = [0x1d, 0x76, 0x30, 0x00, 0x30, 0x00, 0xc8, 0x00] ++ List.replicate 9600 0
    ∧ (frameCommand 48 200 (List.replicate 9600 0)).drop 10 = List.replicate 9600 0
    ∧ ((frameCommand 48 200 (List.replicate 9600 0)).drop 10).length = 9600 :=
  frame_header_48_200 (List.replicate 9600 0) (List.length_replicate 9600 0)

/-- C5: behavior when the device path does not exist.  `print_image.py`'s
`main` checks `os.path.exists(DEV)` first and stops with the
device-not-found report and zero device operations; `print_tweet.py`'s
`main` has no such check — it reaches `send_to_printer` regardless (where
`open(dev, "wb")` creates the missing path), performs the full write
sequence, and can never report device-not-found. -/
theorem device_missing_behavior :
    (∀ ioOk payload wb hp, imageMain true true false ioOk payload wb hp
        = (Outcome.deviceNotFound, []))
    ∧ (tweetMain true true false (List.replicate 9600 0) 48 200).1 = Outcome.sent
    ∧ (tweetMain true true false (List.replicate 9600 0) 48 200).2
        = sendTrace (List.replicate 9600 0) 48 200
    ∧ (∀ argcOk ioOk devExists payload wb hp,
        (tweetMain argcOk ioOk devExists payload wb hp).1 ≠ Outcome.deviceNotFound) := by
  refine ⟨fun _ _ _ _ => rfl, rfl, rfl, ?_⟩
  intro argcOk ioOk devExists payload wb hp
  cases argcOk <;> cases ioOk <;> simp [tweetMain]

/-- C5 witness: the two flows evaluated at concrete inputs with the device
absent. -/
theorem device_missing_behavior_witness :
    imageMain true true false true [0] 48 200 = (Outcome.deviceNotFound, [])
    ∧ (tweetMain true true false [0] 48 200).1 ≠ Outcome.deviceNotFound :=
  ⟨device_missing_behavior.1 true [0] 48 200,
   device_missing_behavior.2.2.2 true true false [0] 48 200⟩

/-- C6: for a fixed position, the dither decision (1 = black) is antitone
in the gray value: a darker input never yields fewer black dots. -/
theorem dither_pixel_monotone (x y g1 g2 : Nat) (h : g1 ≤ g2) :
    dither_pixel g2 x y ≤ dither_pixel g1 x y := by
  unfold dither_pixel
  split <;> split <;> omega

/-- C6 witness: at position (1,0) (threshold 191), gray 64 gives at most
as many black dots as gray 0. -/
theorem dither_pixel_monotone_witness :
    (0:Nat) ≤ 64 ∧ dither_pixel 64 1 0 ≤ dither_pixel 0 1 0 :=
  ⟨by decide, dither_pixel_monotone 1 0 0 64 (by decide)⟩

/-- C7: `dither_pixel` is deterministic (equal arguments give equal
results) and periodic with period 8 in both coordinates. -/
theorem dither_pixel_deterministic_periodic :
    (∀ g x y g' x' y', g = g' → x = x' → y = y' →
        dither_pixel g x y = dither_pixel g' x' y')
    ∧ (∀ g x y, dither_pixel g (x + 8) y = dither_pixel g x y)
    ∧ (∀ g x y, dither_pixel g x (y + 8) = dither_pixel g x y) := by
  refine ⟨?_, ?_, ?_⟩
  · intro g x y g' x' y' hg hx hy
    rw [hg, hx, hy]
  · intro g x y
    unfold dither_pixel bayerThreshold
    rw [Nat.add_mod_right]
  · intro g x y
    unfold dither_pixel bayerThreshold
    rw [Nat.add_mod_right]

/-- C7 witness: determinism and both periodicities at concrete inputs. -/
theorem dither_pixel_deterministic_periodic_witness :
    dither_pixel 3 4 5 = dither_pixel 3 4 5
    ∧ dither_pixel 100 9 2 = dither_pixel 100 1 2
    ∧ dither_pixel 100 2 9 = dither_pixel 100 2 1 :=
  ⟨dither_pixel_deterministic_periodic.1 3 4 5 3 4 5 rfl rfl rfl,
   dither_pixel_deterministic_periodic.2.1 100 1 2,
   dither_pixel_deterministic_periodic.2.2 100 2 1⟩

/-- C8: the packer's width padding and output length: `widthPadded` and
`bytesPerRow` follow the stated formulas, the output has exactly
`bytesPerRow * height` bytes, width 385 pads to 392 giving 49 bytes per
row, and the padding columns 385–391 always read back white regardless of
the source pixels. -/
theorem packer_dimensions_padding (pixels : Nat → Nat → Nat) (width height : Nat) :
    widthPadded width = width + (8 - width % 8) % 8
    ∧ bytesPerRow width = widthPadded width / 8
    ∧ (buildBitmap (ditherDotOf pixels) width height).length = bytesPerRow width * height
    ∧ widthPadded 385 = 392
    ∧ bytesPerRow 385 = 49
    ∧ (∀ y x, y < height → 385 ≤ x → x < 392 →
        readBit (buildBitmap (ditherDotOf pixels) 385 height) 49 y x = false) := by
  refine ⟨rfl, rfl, ?_, by decide, by decide, ?_⟩
  · rw [buildBitmap_length]
    ring
  · intro y x hy h385 h392
    have hwp : widthPadded 385 = 392 := by decide
    have h := readBit_buildBitmap (ditherDotOf pixels) 385 height y x
      (ditherDotOf_le_one pixels) hy (by omega)
    have hbpr : bytesPerRow 385 = 49 := by decide
    rw [hbpr] at h
    rw [h, if_neg (by omega : ¬ x < 385)]
    simp

/-- C8 witness: length and padding-whiteness at a concrete all-black
385×1 image. -/
theorem packer_dimensions_padding_witness :
    (buildBitmap (ditherDotOf fun _ _ => 0) 385 1).length = bytesPerRow 385 * 1
    ∧ readBit (buildBitmap (ditherDotOf fun _ _ => 0) 385 1) 49 0 390 = false :=
  ⟨(packer_dimensions_padding (fun _ _ => 0) 385 1).2.2.1,
   (packer_dimensions_padding (fun _ _ => 0) 385 1).2.2.2.2.2 0 390
     (by decide) (by decide) (by decide)⟩

/-- C9: `send_to_printer` performs exactly this ordered operation
sequence on the device handle: write the newline byte, flush, wait 20 ms;
write the reset bytes plus the 8 header bytes as a single write, flush,
wait 20 ms; write the raster payload, flush — nothing reordered, merged,
or skipped. -/
theorem send_to_printer_sequence (payload : List Nat) (width_bytes height_pixels : Nat) :
    sendTrace payload width_bytes height_pixels
      = [DeviceOp.write [10], DeviceOp.flush, DeviceOp.sleepMs 20,
         DeviceOp.write (INIT ++ rasterHeader width_bytes height_pixels),
         DeviceOp.flush, DeviceOp.sleepMs 20,
         DeviceOp.write payload, DeviceOp.flush] := rfl

/-- C10: every canvas `render_tweet` produces is exactly `WIDTH = 384`
pixels wide — a multiple of 8 — so the packer's padding is 0 and
`bytesPerRow` is 48 for every tweet-print job, whatever the profile
image, username, text, or date produce for the measured heights. -/
theorem render_tweet_width_invariant (m : TweetMetrics) :
    (renderTweetSize m).1 = 384
    ∧ pad (renderTweetSize m).1 = 0
    ∧ widthPadded (renderTweetSize m).1 = 384
    ∧ bytesPerRow (renderTweetSize m).1 = 48 := by
  have hw : (renderTweetSize m).1 = 384 := rfl
  refine ⟨hw, ?_, ?_, ?_⟩ <;> rw [hw] <;> decide
